import Mathlib

/-!
Verification of the marathon-training calculation module
(src/tools/training_tools.py) as a shallow embedding in Lean 4.

Numbers are modelled as exact rationals; the source works on Python
floats, but every quantity examined here is an exact short decimal far
from any rounding tie, so the rational model agrees with the float
behavior.  Functions that can raise a Python exception are modelled as
Option-returning, with none standing for the raised exception.
-/

/-- Python's round-half-to-even on an exact rational, as an integer. -/
def pyRoundInt (x : ℚ) : ℤ :=
  let f := Int.floor x
  let frac := x - (f : ℚ)
  if frac < 1/2 then f
  else if 1/2 < frac then f + 1
  else if f % 2 = 0 then f else f + 1

/-- Python's round(x, n) for n decimal digits, on exact rationals. -/
def roundTo (n : ℕ) (x : ℚ) : ℚ :=
  (pyRoundInt (x * (10:ℚ)^n) : ℚ) / (10:ℚ)^n

/-- The dict returned by calculate_acwr.  The two weekly fields appear
only in the success branch of the source, hence Option. -/
structure AcwrResult where
  status : String
  ratio : ℚ
  risk_level : String
  recommendation : String
  acute_load : ℚ
  chronic_load : ℚ
  acute_weekly : Option ℚ
  chronic_weekly : Option ℚ
  deriving DecidableEq, Repr

/-- Embedding of calculate_acwr (src/tools/training_tools.py lines 10-72).
Sums are divided by the fixed window lengths 7 and 28 exactly as in the
source, whatever the list lengths are. -/
def calculate_acwr (last_7_days last_28_days : List ℚ) : AcwrResult :=
  let acute_load := last_7_days.sum / 7
  let chronic_load := last_28_days.sum / 28
  if chronic_load = 0 then
    { status := "error"
      ratio := 0
      risk_level := "INSUFFICIENT_DATA"
      recommendation := "Need at least 4 weeks of training data"
      acute_load := acute_load
      chronic_load := 0
      acute_weekly := none
      chronic_weekly := none }
  else
    let r := acute_load / chronic_load
    let rl : String × String :=
      if r > 3/2 then
        (("HIGH"), ("REDUCE_LOAD_IMMEDIATELY - High injury risk detected"))
      else if r > 13/10 then
        (("ELEVATED"), ("CAUTION - Monitor closely and consider reducing load"))
      else if r < 4/5 then
        (("UNDERTRAINING"), ("Consider increasing training load gradually"))
      else
        (("SAFE"), ("Training load is well-balanced - continue current progression"))
    { status := "success"
      ratio := roundTo 2 r
      risk_level := rl.1
      recommendation := rl.2
      acute_load := roundTo 1 acute_load
      chronic_load := roundTo 1 chronic_load
      acute_weekly := some (roundTo 1 (acute_load * 7))
      chronic_weekly := some (roundTo 1 (chronic_load * 7)) }

/-- Zero-pads an integer to two digits, as Python's 02d format does for
the nonnegative minute values that occur here. -/
def pad2 (n : ℤ) : String :=
  if 0 ≤ n ∧ n < 10 then "0" ++ toString n else toString n

/-- The display string built in the source from the predicted marathon
minutes: int(mp // 60), a colon, then int(mp % 60) zero-padded to two
digits.  Python's // is the floor and % the nonnegative remainder for
the positive divisor 60; int() truncates, which on the nonnegative
remainder is again the floor. -/
def hmDisplay (mp : ℚ) : String :=
  toString (Int.floor (mp / 60)) ++ ":" ++ pad2 (Int.floor (mp - 60 * (Int.floor (mp / 60) : ℚ)))

/-- The improvement message of the source, modelled only up to its
dependence on the two scores (Python float formatting is not modelled;
no claim depends on the text). -/
def improvementMessage (prior new : ℚ) : String :=
  "VDOT improved from " ++ toString prior ++ " to " ++ toString (roundTo 1 new)

/-- The dict returned by adjust_paces_from_race.  The improvement field
holds the value at the improvement key, which the source dict always
contains; none models the Python value None. -/
structure PaceResult where
  status : String
  vdot : ℚ
  race_pace_per_mile : ℚ
  easy : ℚ
  tempo : ℚ
  interval : ℚ
  long_run : ℚ
  marathon_prediction_minutes : ℚ
  marathon_prediction_time : String
  improvement : Option String
  deriving DecidableEq, Repr

/-- The keys of the dict literal returned by adjust_paces_from_race in
the source; the literal is the same on every execution path, so its key
set is a constant.  The paces sub-dict is flattened into the four pace
fields of PaceResult. -/
def adjust_paces_keys : List String :=
  [("status"), ("vdot"), ("race_pace_per_mile"), ("paces"),
   ("marathon_prediction_minutes"), ("marathon_prediction_time"), ("improvement")]

/-- Embedding of adjust_paces_from_race (src/tools/training_tools.py
lines 75-152).  A zero distance makes the source raise ZeroDivisionError
on the first line, modelled as none.  The conditional improvement value
follows Python truthiness: None and 0 are falsy. -/
def adjust_paces_from_race (race_distance_miles race_time_minutes : ℚ)
    (current_vdot : Option ℚ) : Option PaceResult :=
  if race_distance_miles = 0 then none
  else
    let race_pace := race_time_minutes / race_distance_miles
    let estimated_vdot := 35 + (10 - race_pace) * (7/2)
    let clamped_vdot := max 25 (min 85 estimated_vdot)
    let easy_pace := race_pace + 3/2
    let tempo_pace := race_pace + 3/10
    let interval_pace := race_pace - 1/2
    let long_run_pace := race_pace + 1
    let marathon_prediction :=
      if race_distance_miles ≥ 20 then race_pace * (262/10) * (102/100)
      else if race_distance_miles ≥ 13 then race_pace * (262/10) * (105/100)
      else race_pace * (262/10) * (108/100)
    some
      { status := "success"
        vdot := roundTo 1 clamped_vdot
        race_pace_per_mile := roundTo 2 race_pace
        easy := roundTo 2 easy_pace
        tempo := roundTo 2 tempo_pace
        interval := roundTo 2 interval_pace
        long_run := roundTo 2 long_run_pace
        marathon_prediction_minutes := roundTo 1 marathon_prediction
        marathon_prediction_time := hmDisplay marathon_prediction
        improvement :=
          match current_vdot with
          | none => none
          | some v => if v = 0 then none else some (improvementMessage v clamped_vdot) }

/-- One entry of the weekly plan built by
calculate_weekly_mileage_progression; wtype holds the value at the key
named type in the source dict. -/
structure WeekEntry where
  week : ℕ
  mileage : ℚ
  wtype : String
  deriving DecidableEq, Repr

/-- The dict returned by calculate_weekly_mileage_progression.  The
max_weekly_increase field keeps the numeric percentage that the source
formats into a string with a percent sign. -/
structure ProgressionResult where
  status : String
  weekly_plan : List WeekEntry
  final_mileage : ℚ
  target_mileage : ℚ
  is_achievable : Bool
  max_weekly_increase : ℚ
  recommendation : String
  deriving DecidableEq, Repr

/-- The max_increase_rates dict lookup with default 0.10 from the
source (dict.get with default). -/
def maxIncreaseFor (ability_level : String) : ℚ :=
  if ability_level = "beginner" then 10/100
  else if ability_level = "intermediate" then 12/100
  else if ability_level = "advanced" then 15/100
  else if ability_level = "elite" then 18/100
  else 10/100

/-- One iteration of the loop body of
calculate_weekly_mileage_progression: the new carried mileage and the
week type, from the week number and the carried mileage entering that
week. -/
def weekStep (target_mileage max_increase : ℚ) (week : ℕ) (current : ℚ) : ℚ × String :=
  if week % 4 = 0 then (current * (8/10), ("recovery"))
  else
    let increase := min (current * max_increase) (target_mileage - current)
    (min (current + increase) target_mileage, ("build"))

/-- The list of week entries appended by the source loop, running n
further iterations starting at the given week number with the given
carried mileage. -/
def planFrom (target_mileage max_increase : ℚ) : ℕ → ℕ → ℚ → List WeekEntry
  | 0, _, _ => []
  | n+1, week, current =>
    let s := weekStep target_mileage max_increase week current
    { week := week, mileage := roundTo 1 s.1, wtype := s.2 } :: planFrom target_mileage max_increase n (week + 1) s.1

/-- The carried (pre-rounding) mileage after week w of the source loop,
starting from the initial current mileage; carried 0 is the input. -/
def carried (target_mileage max_increase initial : ℚ) : ℕ → ℚ
  | 0 => initial
  | w+1 => (weekStep target_mileage max_increase (w + 1) (carried target_mileage max_increase initial w)).1

/-- Embedding of calculate_weekly_mileage_progression
(src/tools/training_tools.py lines 155-224).  The loop runs
weeks_available times (zero times when weeks_available is not
positive, as Python range is then empty); indexing the empty plan with
-1 then raises IndexError, modelled as none. -/
def calculate_weekly_mileage_progression (current_mileage target_mileage : ℚ)
    (weeks_available : ℤ) (ability_level : String) : Option ProgressionResult :=
  let max_increase := maxIncreaseFor ability_level
  let weekly_plan := planFrom target_mileage max_increase weeks_available.toNat 1 current_mileage
  match weekly_plan.getLast? with
  | none => none
  | some last_entry =>
    let final_mileage := last_entry.mileage
    let is_safe : Bool := decide (final_mileage ≥ target_mileage * (9/10))
    some
      { status := "success"
        weekly_plan := weekly_plan
        final_mileage := roundTo 1 final_mileage
        target_mileage := target_mileage
        is_achievable := is_safe
        max_weekly_increase := max_increase * 100
        recommendation :=
          if is_safe then ("Safe progression") else ("Target too aggressive - need more weeks") }

/-- The dict returned by get_corrective_exercises; payload carries the
entry spliced into the success dict by the double-star unpacking, and
is polymorphic since the catalog file is data outside the verified
module. -/
structure LookupResult (α : Type) where
  status : String
  error_message : Option String
  available_types : Option (List String)
  payload : Option α
  deriving DecidableEq, Repr

/-- Python dict membership and indexing on an association list with
distinct keys: the value at the first matching key, if any. -/
def dictLookup {α : Type} (lib : List (String × α)) (k : String) : Option α :=
  match lib with
  | [] => none
  | (k2, v) :: rest => if k2 = k then some v else dictLookup rest k

/-- Embedding of get_corrective_exercises (src/tools/training_tools.py
lines 227-287).  The catalog argument stands for the outcome of
loading the exercise-library file: none when the file is missing
(FileNotFoundError branch), some lib when it loads as the association
list lib.  The generic exception branch for a corrupt file differs
from the missing-file branch only in the message text and is not
separately modelled; no claim depends on that text. -/
def get_corrective_exercises {α : Type} (catalog : Option (List (String × α)))
    (injury_type : String) : LookupResult α :=
  match catalog with
  | none =>
    { status := "error"
      error_message := some ("Exercise library file not found")
      available_types := none
      payload := none }
  | some lib =>
    match dictLookup lib injury_type with
    | some entry =>
      { status := "success"
        error_message := none
        available_types := none
        payload := some entry }
    | none =>
      { status := "error"
        error_message := some ("Unknown injury type: " ++ injury_type)
        available_types := some (lib.map Prod.fst)
        payload := none }

/-- The entry the source loop records for week w: the week number, the
carried mileage rounded to one decimal, and the week type read off the
week number. -/
def entryAt (t mi c : ℚ) (w : ℕ) : WeekEntry :=
  { week := w
    mileage := roundTo 1 (carried t mi c w)
    wtype := if w % 4 = 0 then ("recovery") else ("build") }

/-- The whole weekly plan of the source loop for weeks 1..n. -/
def entriesUpTo (t mi c : ℚ) (n : ℕ) : List WeekEntry :=
  (List.range n).map (fun i => entryAt t mi c (i + 1))

/-- Whether a recorded week entry stays within the target plus the
largest possible one-decimal rounding excess. -/
def entryWithin (t : ℚ) (e : WeekEntry) : Bool := decide (e.mileage ≤ t + 1/20)

/-- Whether every recorded week of a result stays within the target
plus the rounding excess. -/
def planWithin (t : ℚ) (r : ProgressionResult) : Bool := r.weekly_plan.all (entryWithin t)

/-- Whether the carried (pre-rounding) mileage of every week 1..weeks
stays at or below the target. -/
def carriedWithin (t mi c : ℚ) (weeks : ℕ) : Bool :=
  (List.range weeks).all (fun i => decide (carried t mi c (i + 1) ≤ t))

/-- Whether a pace result carries an improvement string, that is a
non-null value at the improvement key. -/
def hasImprovement (r : PaceResult) : Bool := r.improvement.isSome

/-- Round-half-to-even moves a value up by at most one half. -/
lemma pyRoundInt_le (x : ℚ) : (pyRoundInt x : ℚ) ≤ x + 1/2 := by
  have hfl := Int.floor_le x
  simp only [pyRoundInt]
  split_ifs with h1 h2 h3 <;> push_cast <;> linarith

/-- Rounding to one decimal moves a value up by at most one twentieth. -/
lemma roundTo_one_le (x : ℚ) : roundTo 1 x ≤ x + 1/20 := by
  have h := pyRoundInt_le (x * (10:ℚ)^1)
  simp only [roundTo]
  rw [div_le_iff₀ (by norm_num : (0:ℚ) < (10:ℚ)^1)]
  push_cast at h ⊢
  nlinarith [h]

/-- Every ability level, known or unknown, yields a nonnegative growth
rate. -/
lemma maxIncreaseFor_nonneg (lvl : String) : 0 ≤ maxIncreaseFor lvl := by
  simp only [maxIncreaseFor]
  split_ifs <;> norm_num

/-- The week type computed by the loop body depends only on the week
number. -/
lemma weekStep_snd (t mi : ℚ) (w : ℕ) (c : ℚ) :
    (weekStep t mi w c).2 = if w % 4 = 0 then ("recovery") else ("build") := by
  simp only [weekStep]
  split_ifs <;> rfl

/-- The loop starting after week w0 with the carried mileage of week w0
records exactly the entries of weeks w0+1, w0+2, ... -/
lemma planFrom_eq (t mi c : ℚ) (n : ℕ) : ∀ w0 : ℕ,
    planFrom t mi n (w0 + 1) (carried t mi c w0)
      = (List.range n).map (fun i => entryAt t mi c (w0 + (i + 1))) := by
  induction n with
  | zero => intro w0; rfl
  | succ n ih =>
    intro w0
    have hs1 : (weekStep t mi (w0 + 1) (carried t mi c w0)).1 = carried t mi c (w0 + 1) := rfl
    simp only [planFrom, List.range_succ_eq_map, List.map_cons, List.map_map]
    rw [List.cons_eq_cons]
    constructor
    · simp [entryAt, weekStep_snd, hs1]
    · rw [hs1]
      have := ih (w0 + 1)
      rw [this]
      apply List.map_congr_left
      intro i _
      simp only [Function.comp]
      congr 1
      omega

/-- The full loop records exactly the entries of weeks 1..n. -/
lemma planFrom_one (t mi c : ℚ) (n : ℕ) :
    planFrom t mi n 1 c = entriesUpTo t mi c n := by
  have h := planFrom_eq t mi c n 0
  simpa [entriesUpTo] using h

/-- With nonnegative inputs the carried mileage stays nonnegative, and
from week 1 on it never exceeds the target: build weeks clamp to the
target and recovery weeks only shrink a value already below it. -/
lemma carried_bounds (t mi c : ℚ) (ht : 0 ≤ t) (hc : 0 ≤ c) (hmi : 0 ≤ mi) :
    ∀ w : ℕ, 0 ≤ carried t mi c w ∧ (1 ≤ w → carried t mi c w ≤ t) := by
  intro w
  induction w with
  | zero => exact ⟨hc, fun h => absurd h (by omega)⟩
  | succ n ih =>
    obtain ⟨ih0, ih1⟩ := ih
    by_cases h4 : (n + 1) % 4 = 0
    · have hn : 1 ≤ n := by omega
      have hle := ih1 hn
      simp only [carried, weekStep, h4, if_true]
      constructor
      · nlinarith
      · intro _
        nlinarith
    · simp only [carried, weekStep, h4, if_false]
      rcases le_total (carried t mi c n * mi) (t - carried t mi c n) with hab | hab
      · rw [min_eq_left hab]
        constructor
        · have h1 : 0 ≤ carried t mi c n * mi := mul_nonneg ih0 hmi
          rcases le_total (carried t mi c n + carried t mi c n * mi) t with hbt | hbt
          · rw [min_eq_left hbt]; linarith
          · rw [min_eq_right hbt]; linarith
        · intro _; exact min_le_right _ _
      · rw [min_eq_right hab]
        constructor
        · have : carried t mi c n + (t - carried t mi c n) = t := by ring
          rw [this, min_self]; linarith
        · intro _; exact min_le_right _ _

/-- With at least one week the progression returns a success record
whose weekly plan is the recorded loop output. -/
lemma calc_plan_eq (c t : ℚ) (weeks : ℕ) (lvl : String) (hw : 1 ≤ weeks) :
    Option.map ProgressionResult.weekly_plan
        (calculate_weekly_mileage_progression c t (weeks : ℤ) lvl)
      = some (planFrom t (maxIncreaseFor lvl) weeks 1 c) := by
  unfold calculate_weekly_mileage_progression
  rw [Int.toNat_natCast]
  rcases hlast : (planFrom t (maxIncreaseFor lvl) weeks 1 c).getLast? with _ | e
  · exfalso
    rw [List.getLast?_eq_none_iff] at hlast
    cases weeks with
    | zero => omega
    | succ k => simp [planFrom] at hlast
  · simp only [hlast, Option.map_some]
    rfl

/-- C1 counterexample: at distanceMiles 18 and timeMinutes 144 the
source uses the half-marathon factor 1.05 (18 is below the 20-mile
threshold for 1.02), so the display string is 3:40 and the prediction
220.1 minutes, not the 3:33 and 213.8 the claim states. -/
theorem C1_counterexample :
    Option.map PaceResult.marathon_prediction_time (adjust_paces_from_race 18 144 none)
      = some ("3:40") ∧
    Option.map PaceResult.marathon_prediction_time (adjust_paces_from_race 18 144 none)
      ≠ some ("3:33") ∧
    Option.map PaceResult.marathon_prediction_minutes (adjust_paces_from_race 18 144 none)
      = some (2201/10) ∧
    (2201/10 : ℚ) ≠ roundTo 1 (8 * (262/10) * (102/100)) := by
  refine ⟨?_, ?_, ?_, ?_⟩ <;>
    norm_num [adjust_paces_from_race, hmDisplay, pad2, roundTo, pyRoundInt] <;>
    decide

/-- C1 amended: estimatePaces(18, 144) with no priorScore returns
racePace 8.0, fitnessScore 42.0, easyPace 9.5, tempoPace 8.3,
intervalPace 7.5, longRunPace 9.0, marathonPredictionMinutes
8.0 x 26.2 x 1.05 = 220.08 rounded to 220.1, display 3:40, and a null
improvement value. -/
theorem C1_amended_estimate_paces :
    adjust_paces_from_race 18 144 none = some
      { status := ("success")
        vdot := 42
        race_pace_per_mile := 8
        easy := 19/2
        tempo := 83/10
        interval := 15/2
        long_run := 9
        marathon_prediction_minutes := 2201/10
        marathon_prediction_time := ("3:40")
        improvement := none } ∧
    (8 * (262/10) * (105/100) : ℚ) = 5502/25 ∧
    roundTo 1 (5502/25) = 2201/10 ∧
    (35 + (10 - 8) * (7/2) : ℚ) = 42 := by
  refine ⟨?_, by norm_num, ?_, by norm_num⟩ <;>
    norm_num [adjust_paces_from_race, hmDisplay, pad2, roundTo, pyRoundInt] <;>
    decide

/-- C2: whenever the 28-day mean is positive, the returned ratio is the
two-decimal rounding of mean(last7)/mean(last28) and the risk level is
determined by the full-precision ratio alone: HIGH on (1.5, inf),
ELEVATED on (1.3, 1.5], UNDERTRAINING on (-inf, 0.8), SAFE on
[0.8, 1.3]; in particular the boundary ratios 1.5, 1.3 and 0.8 classify
as ELEVATED, SAFE and SAFE. -/
theorem C2_acwr_risk_bands (l7 l28 : List ℚ) (h : 0 < l28.sum / 28) :
    (calculate_acwr l7 l28).ratio = roundTo 2 ((l7.sum / 7) / (l28.sum / 28)) ∧
    ((calculate_acwr l7 l28).risk_level = ("HIGH") ↔
      3/2 < (l7.sum / 7) / (l28.sum / 28)) ∧
    ((calculate_acwr l7 l28).risk_level = ("ELEVATED") ↔
      (13/10 < (l7.sum / 7) / (l28.sum / 28) ∧ (l7.sum / 7) / (l28.sum / 28) ≤ 3/2)) ∧
    ((calculate_acwr l7 l28).risk_level = ("UNDERTRAINING") ↔
      (l7.sum / 7) / (l28.sum / 28) < 4/5) ∧
    ((calculate_acwr l7 l28).risk_level = ("SAFE") ↔
      (4/5 ≤ (l7.sum / 7) / (l28.sum / 28) ∧ (l7.sum / 7) / (l28.sum / 28) ≤ 13/10)) := by
  have hne : l28.sum / 28 ≠ 0 := ne_of_gt h
  simp only [calculate_acwr, hne, if_false, gt_iff_lt]
  split_ifs with h1 h2 h3
  · refine ⟨trivial, iff_of_true rfl h1, ?_, ?_, ?_⟩
    · exact iff_of_false (by decide) (by rintro ⟨a, b⟩; linarith)
    · exact iff_of_false (by decide) (by intro a; linarith)
    · exact iff_of_false (by decide) (by rintro ⟨a, b⟩; linarith)
  · refine ⟨trivial, iff_of_false (by decide) (by intro a; linarith), ?_, ?_, ?_⟩
    · exact iff_of_true rfl ⟨h2, by linarith⟩
    · exact iff_of_false (by decide) (by intro a; linarith)
    · exact iff_of_false (by decide) (by rintro ⟨a, b⟩; linarith)
  · refine ⟨trivial, iff_of_false (by decide) (by intro a; linarith), ?_, ?_, ?_⟩
    · exact iff_of_false (by decide) (by rintro ⟨a, b⟩; linarith)
    · exact iff_of_true rfl h3
    · exact iff_of_false (by decide) (by rintro ⟨a, b⟩; linarith)
  · refine ⟨trivial, iff_of_false (by decide) (by intro a; linarith), ?_, ?_, ?_⟩
    · exact iff_of_false (by decide) (by rintro ⟨a, b⟩; linarith)
    · exact iff_of_false (by decide) (by intro a; linarith)
    · exact iff_of_true rfl ⟨by linarith, by linarith⟩

/-- C2 witness: a week of 10.5 miles in one day against a constant
28-day baseline of 1 mile per day gives the boundary ratio exactly 1.5,
which the band theorem classifies as ELEVATED. -/
theorem C2_acwr_risk_bands_witness :
    (0 : ℚ) < (List.replicate 28 (1:ℚ)).sum / 28 ∧
    ((calculate_acwr [(21/2 : ℚ), 0, 0, 0, 0, 0, 0] (List.replicate 28 (1:ℚ))).ratio
        = roundTo 2 (([(21/2 : ℚ), 0, 0, 0, 0, 0, 0].sum / 7) / ((List.replicate 28 (1:ℚ)).sum / 28)) ∧
      ((calculate_acwr [(21/2 : ℚ), 0, 0, 0, 0, 0, 0] (List.replicate 28 (1:ℚ))).risk_level = ("HIGH") ↔
        3/2 < ([(21/2 : ℚ), 0, 0, 0, 0, 0, 0].sum / 7) / ((List.replicate 28 (1:ℚ)).sum / 28)) ∧
      ((calculate_acwr [(21/2 : ℚ), 0, 0, 0, 0, 0, 0] (List.replicate 28 (1:ℚ))).risk_level = ("ELEVATED") ↔
        (13/10 < ([(21/2 : ℚ), 0, 0, 0, 0, 0, 0].sum / 7) / ((List.replicate 28 (1:ℚ)).sum / 28) ∧
          ([(21/2 : ℚ), 0, 0, 0, 0, 0, 0].sum / 7) / ((List.replicate 28 (1:ℚ)).sum / 28) ≤ 3/2)) ∧
      ((calculate_acwr [(21/2 : ℚ), 0, 0, 0, 0, 0, 0] (List.replicate 28 (1:ℚ))).risk_level = ("UNDERTRAINING") ↔
        ([(21/2 : ℚ), 0, 0, 0, 0, 0, 0].sum / 7) / ((List.replicate 28 (1:ℚ)).sum / 28) < 4/5) ∧
      ((calculate_acwr [(21/2 : ℚ), 0, 0, 0, 0, 0, 0] (List.replicate 28 (1:ℚ))).risk_level = ("SAFE") ↔
        (4/5 ≤ ([(21/2 : ℚ), 0, 0, 0, 0, 0, 0].sum / 7) / ((List.replicate 28 (1:ℚ)).sum / 28) ∧
          ([(21/2 : ℚ), 0, 0, 0, 0, 0, 0].sum / 7) / ((List.replicate 28 (1:ℚ)).sum / 28) ≤ 13/10))) :=
  ⟨by norm_num, C2_acwr_risk_bands [(21/2 : ℚ), 0, 0, 0, 0, 0, 0] (List.replicate 28 (1:ℚ)) (by norm_num)⟩

/-- C3 counterexample: on all-zero inputs the source returns a dict
tagged with status error and without the weekly fields, so the result
is an error-status envelope missing acuteWeekly and chronicWeekly. -/
theorem C3_counterexample :
    (calculate_acwr (List.replicate 7 (0:ℚ)) (List.replicate 28 (0:ℚ))).status = ("error") ∧
    (calculate_acwr (List.replicate 7 (0:ℚ)) (List.replicate 28 (0:ℚ))).status ≠ ("success") ∧
    (calculate_acwr (List.replicate 7 (0:ℚ)) (List.replicate 28 (0:ℚ))).acute_weekly = none ∧
    (calculate_acwr (List.replicate 7 (0:ℚ)) (List.replicate 28 (0:ℚ))).chronic_weekly = none := by
  refine ⟨?_, ?_, ?_, ?_⟩ <;> norm_num [calculate_acwr] <;> decide

/-- C3 amended: with a zero 28-day mean the function returns (never
raises) a structured record with ratio 0, risk level INSUFFICIENT_DATA,
the four-weeks-of-data recommendation, the unrounded acute load and a
zero chronic load, but tagged status error and with no acuteWeekly or
chronicWeekly fields. -/
theorem C3_insufficient_data_envelope (l7 l28 : List ℚ) (h : l28.sum / 28 = 0) :
    calculate_acwr l7 l28 =
      { status := ("error")
        ratio := 0
        risk_level := ("INSUFFICIENT_DATA")
        recommendation := ("Need at least 4 weeks of training data")
        acute_load := l7.sum / 7
        chronic_load := 0
        acute_weekly := none
        chronic_weekly := none } := by
  simp [calculate_acwr, h]

/-- C3 witness: the all-zero series have zero 28-day mean and produce
exactly the INSUFFICIENT_DATA record. -/
theorem C3_insufficient_data_envelope_witness :
    (List.replicate 28 (0:ℚ)).sum / 28 = 0 ∧
    calculate_acwr (List.replicate 7 (0:ℚ)) (List.replicate 28 (0:ℚ)) =
      { status := ("error")
        ratio := 0
        risk_level := ("INSUFFICIENT_DATA")
        recommendation := ("Need at least 4 weeks of training data")
        acute_load := (List.replicate 7 (0:ℚ)).sum / 7
        chronic_load := 0
        acute_weekly := none
        chronic_weekly := none } :=
  ⟨by norm_num, C3_insufficient_data_envelope (List.replicate 7 (0:ℚ)) (List.replicate 28 (0:ℚ)) (by norm_num)⟩

/-- C4: for positive distance and time, with or without a prior score,
the returned race pace is time/distance, the fitness score is the
clamp of 35 + (10 - racePace) x 3.5 into [25, 85] rounded to one
decimal, and the four training paces are the fixed offsets +1.5, +0.3,
-0.5, +1.0 from the race pace, each rounded to two decimals. -/
theorem C4_pace_offsets (d t : ℚ) (p : Option ℚ) (hd : 0 < d) (ht : 0 < t) :
    Option.map PaceResult.race_pace_per_mile (adjust_paces_from_race d t p)
      = some (roundTo 2 (t / d)) ∧
    Option.map PaceResult.vdot (adjust_paces_from_race d t p)
      = some (roundTo 1 (max 25 (min 85 (35 + (10 - t / d) * (7/2))))) ∧
    Option.map PaceResult.easy (adjust_paces_from_race d t p)
      = some (roundTo 2 (t / d + 3/2)) ∧
    Option.map PaceResult.tempo (adjust_paces_from_race d t p)
      = some (roundTo 2 (t / d + 3/10)) ∧
    Option.map PaceResult.interval (adjust_paces_from_race d t p)
      = some (roundTo 2 (t / d - 1/2)) ∧
    Option.map PaceResult.long_run (adjust_paces_from_race d t p)
      = some (roundTo 2 (t / d + 1)) := by
  have hne : d ≠ 0 := ne_of_gt hd
  simp [adjust_paces_from_race, hne]

/-- C4 witness: the offset formulas instantiated at the 18-mile race in
144 minutes. -/
theorem C4_pace_offsets_witness :
    ((0 : ℚ) < 18 ∧ (0 : ℚ) < 144) ∧
    (Option.map PaceResult.race_pace_per_mile (adjust_paces_from_race 18 144 none)
        = some (roundTo 2 (144 / 18)) ∧
      Option.map PaceResult.vdot (adjust_paces_from_race 18 144 none)
        = some (roundTo 1 (max 25 (min 85 (35 + (10 - 144 / 18) * (7/2))))) ∧
      Option.map PaceResult.easy (adjust_paces_from_race 18 144 none)
        = some (roundTo 2 (144 / 18 + 3/2)) ∧
      Option.map PaceResult.tempo (adjust_paces_from_race 18 144 none)
        = some (roundTo 2 (144 / 18 + 3/10)) ∧
      Option.map PaceResult.interval (adjust_paces_from_race 18 144 none)
        = some (roundTo 2 (144 / 18 - 1/2)) ∧
      Option.map PaceResult.long_run (adjust_paces_from_race 18 144 none)
        = some (roundTo 2 (144 / 18 + 1))) :=
  ⟨⟨by norm_num, by norm_num⟩, C4_pace_offsets 18 144 none (by norm_num) (by norm_num)⟩

/-- C5: with at least one week the returned plan records, for every
week w in range, the entry with the one-decimal rounding of the carried
mileage and the type recovery exactly on multiples of 4; the carried
mileage of a recovery week is 0.8 times that of the previous week, of a
build week the increase formula clamped to the target; and in the
25-to-50-miles 12-week intermediate plan, weeks 4 and 8 are recovery
entries recording 0.8 times the preceding carried mileage. -/
theorem C5_progression_weeks (c t : ℚ) (weeks : ℕ) (lvl : String) (w : ℕ)
    (h1 : 1 ≤ w) (h2 : w ≤ weeks) :
    Option.map ProgressionResult.weekly_plan
        (calculate_weekly_mileage_progression c t (weeks : ℤ) lvl)
      = some (entriesUpTo t (maxIncreaseFor lvl) c weeks) ∧
    entryAt t (maxIncreaseFor lvl) c w
      = { week := w
          mileage := roundTo 1 (carried t (maxIncreaseFor lvl) c w)
          wtype := if w % 4 = 0 then ("recovery") else ("build") } ∧
    (w % 4 = 0 → carried t (maxIncreaseFor lvl) c w
        = carried t (maxIncreaseFor lvl) c (w - 1) * (8/10)) ∧
    (w % 4 ≠ 0 → carried t (maxIncreaseFor lvl) c w
        = min (carried t (maxIncreaseFor lvl) c (w - 1)
            + min (carried t (maxIncreaseFor lvl) c (w - 1) * maxIncreaseFor lvl)
                  (t - carried t (maxIncreaseFor lvl) c (w - 1))) t) ∧
    Option.map ProgressionResult.weekly_plan
        (calculate_weekly_mileage_progression 25 50 12 ("intermediate"))
      = some (entriesUpTo 50 (12/100) 25 12) ∧
    (entriesUpTo 50 (12/100) 25 12)[3]?
      = some { week := 4, mileage := roundTo 1 (carried 50 (12/100) 25 3 * (8/10)), wtype := ("recovery") } ∧
    (entriesUpTo 50 (12/100) 25 12)[7]?
      = some { week := 8, mileage := roundTo 1 (carried 50 (12/100) 25 7 * (8/10)), wtype := ("recovery") } := by
  obtain ⟨k, rfl⟩ : ∃ k, w = k + 1 := ⟨w - 1, by omega⟩
  refine ⟨?_, rfl, ?_, ?_, ?_, ?_, ?_⟩
  · rw [calc_plan_eq c t weeks lvl (by omega), planFrom_one]
  · intro h4
    simp [carried, weekStep, h4]
  · intro h4
    simp [carried, weekStep, h4]
  · have h12 := calc_plan_eq 25 50 12 ("intermediate") (by norm_num)
    rw [planFrom_one] at h12
    have hmi : maxIncreaseFor ("intermediate") = 12/100 := by
      simp [maxIncreaseFor]
    rw [hmi] at h12
    simpa using h12
  · simp [entriesUpTo, entryAt, carried, weekStep]
  · simp [entriesUpTo, entryAt, carried, weekStep]

/-- C5 witness: the plan shape instantiated at the 25-to-50-miles
12-week intermediate progression at its recovery week 4. -/
theorem C5_progression_weeks_witness :
    (1 ≤ 4 ∧ 4 ≤ 12) ∧
    (Option.map ProgressionResult.weekly_plan
        (calculate_weekly_mileage_progression 25 50 ((12 : ℕ) : ℤ) ("intermediate"))
      = some (entriesUpTo 50 (maxIncreaseFor ("intermediate")) 25 12) ∧
    entryAt 50 (maxIncreaseFor ("intermediate")) 25 4
      = { week := 4
          mileage := roundTo 1 (carried 50 (maxIncreaseFor ("intermediate")) 25 4)
          wtype := if 4 % 4 = 0 then ("recovery") else ("build") } ∧
    (4 % 4 = 0 → carried 50 (maxIncreaseFor ("intermediate")) 25 4
        = carried 50 (maxIncreaseFor ("intermediate")) 25 (4 - 1) * (8/10)) ∧
    (4 % 4 ≠ 0 → carried 50 (maxIncreaseFor ("intermediate")) 25 4
        = min (carried 50 (maxIncreaseFor ("intermediate")) 25 (4 - 1)
            + min (carried 50 (maxIncreaseFor ("intermediate")) 25 (4 - 1) * maxIncreaseFor ("intermediate"))
                  (50 - carried 50 (maxIncreaseFor ("intermediate")) 25 (4 - 1))) 50) ∧
    Option.map ProgressionResult.weekly_plan
        (calculate_weekly_mileage_progression 25 50 12 ("intermediate"))
      = some (entriesUpTo 50 (12/100) 25 12) ∧
    (entriesUpTo 50 (12/100) 25 12)[3]?
      = some { week := 4, mileage := roundTo 1 (carried 50 (12/100) 25 3 * (8/10)), wtype := ("recovery") } ∧
    (entriesUpTo 50 (12/100) 25 12)[7]?
      = some { week := 8, mileage := roundTo 1 (carried 50 (12/100) 25 7 * (8/10)), wtype := ("recovery") }) :=
  ⟨⟨by norm_num, by norm_num⟩,
    C5_progression_weeks 25 50 12 ("intermediate") 4 (by norm_num) (by norm_num)⟩

/-- C6 counterexample: starting at 30 miles toward a 30.07-mile target
over one week, the build week reaches exactly 30.07 pre-rounding, and
the recorded one-decimal mileage 30.1 exceeds the target. -/
theorem C6_counterexample :
    Option.map ProgressionResult.weekly_plan
        (calculate_weekly_mileage_progression 30 (3007/100) 1 ("intermediate"))
      = some [{ week := 1, mileage := 301/10, wtype := ("build") }] ∧
    (3007/100 : ℚ) < 301/10 := by
  have hmi : maxIncreaseFor ("intermediate") = 12/100 := by simp [maxIncreaseFor]
  constructor
  · norm_num [calculate_weekly_mileage_progression, planFrom, weekStep, hmi,
      roundTo, pyRoundInt, min_def]
  · norm_num

/-- C6 amended: for nonnegative current and target mileage and at least
one week, the carried pre-rounding mileage of every planned week stays
at or below the target, and every recorded (one-decimal rounded)
mileage exceeds the target by at most 0.05. -/
theorem C6_mileage_bounded (c t : ℚ) (weeks : ℕ) (lvl : String)
    (hc : 0 ≤ c) (ht : 0 ≤ t) (hw : 1 ≤ weeks) :
    Option.map (planWithin t) (calculate_weekly_mileage_progression c t (weeks : ℤ) lvl)
      = some true ∧
    carriedWithin t (maxIncreaseFor lvl) c weeks = true := by
  have hmi := maxIncreaseFor_nonneg lvl
  have hbounds := carried_bounds t (maxIncreaseFor lvl) c ht hc hmi
  have hcw : carriedWithin t (maxIncreaseFor lvl) c weeks = true := by
    simp only [carriedWithin, List.all_eq_true, decide_eq_true_eq]
    intro i _
    exact (hbounds (i + 1)).2 (by omega)
  refine ⟨?_, hcw⟩
  have hplan := calc_plan_eq c t weeks lvl hw
  obtain ⟨r, hro, hrw⟩ := Option.map_eq_some'.mp hplan
  rw [hro]
  simp only [Option.map_some', Option.some_inj]
  simp only [planWithin, hrw, planFrom_one, entriesUpTo, List.all_eq_true, List.mem_map,
    List.mem_range, entryWithin, decide_eq_true_eq]
  rintro e ⟨i, hi, rfl⟩
  have h1 := roundTo_one_le (carried t (maxIncreaseFor lvl) c (i + 1))
  have h2 := (hbounds (i + 1)).2 (by omega)
  simp only [entryAt]
  linarith

/-- C6 witness: the bound instantiated at the 25-to-50-miles 12-week
intermediate progression. -/
theorem C6_mileage_bounded_witness :
    ((0 : ℚ) ≤ 25 ∧ (0 : ℚ) ≤ 50 ∧ 1 ≤ 12) ∧
    (Option.map (planWithin 50)
        (calculate_weekly_mileage_progression 25 50 ((12 : ℕ) : ℤ) ("intermediate"))
      = some true ∧
    carriedWithin 50 (maxIncreaseFor ("intermediate")) 25 12 = true) :=
  ⟨⟨by norm_num, by norm_num, by norm_num⟩,
    C6_mileage_bounded 25 50 12 ("intermediate") (by norm_num) (by norm_num) (by norm_num)⟩

/-- C7 counterexample: a negative distance is not rejected: the source
returns a success-status result for it, so out-of-range input is
silently coerced rather than reported as INVALID_INPUT. -/
theorem C7_counterexample :
    Option.map PaceResult.status (adjust_paces_from_race (-18) 144 none) = some ("success") := by
  norm_num [adjust_paces_from_race]

/-- C7 amended: neither function has an INVALID_INPUT path: a negative
distance yields a success result, a zero distance makes the pace
function raise ZeroDivisionError (modelled none), and zero or negative
weeks make the progression function raise IndexError on its empty plan
(modelled none). -/
theorem C7_no_invalid_input_error (d t c tg : ℚ) (w : ℤ) (lvl : String)
    (hd : d < 0) (hw : w ≤ 0) :
    Option.map PaceResult.status (adjust_paces_from_race d t none) = some ("success") ∧
    adjust_paces_from_race 0 t none = none ∧
    calculate_weekly_mileage_progression c tg w lvl = none := by
  have hne : d ≠ 0 := ne_of_lt hd
  refine ⟨?_, ?_, ?_⟩
  · simp [adjust_paces_from_race, hne]
  · simp [adjust_paces_from_race]
  · simp [calculate_weekly_mileage_progression, Int.toNat_of_nonpos hw, planFrom]

/-- C7 witness: the missing-validation behavior at distance -18 and
zero weeks. -/
theorem C7_no_invalid_input_error_witness :
    ((-18 : ℚ) < 0 ∧ (0 : ℤ) ≤ 0) ∧
    (Option.map PaceResult.status (adjust_paces_from_race (-18) 144 none) = some ("success") ∧
      adjust_paces_from_race 0 144 none = none ∧
      calculate_weekly_mileage_progression 25 50 0 ("intermediate") = none) :=
  ⟨⟨by norm_num, le_refl 0⟩,
    C7_no_invalid_input_error (-18) 144 25 50 0 ("intermediate") (by norm_num) (le_refl 0)⟩

/-- C8: for any catalog content and any key not in it, the lookup
returns an error carrying exactly the catalog keys as available types,
while an unreadable catalog returns an error with no available-types
field, and the two error results are distinct. -/
theorem C8_lookup_errors {α : Type} (lib : List (String × α)) (k : String)
    (hk : dictLookup lib k = none) :
    (get_corrective_exercises (some lib) k).status = ("error") ∧
    (get_corrective_exercises (some lib) k).error_message
      = some ("Unknown injury type: " ++ k) ∧
    (get_corrective_exercises (some lib) k).available_types = some (lib.map Prod.fst) ∧
    (get_corrective_exercises (none : Option (List (String × α))) k).status = ("error") ∧
    (get_corrective_exercises (none : Option (List (String × α))) k).available_types = none ∧
    get_corrective_exercises (none : Option (List (String × α))) k
      ≠ get_corrective_exercises (some lib) k := by
  refine ⟨?_, ?_, ?_, rfl, rfl, ?_⟩
  · simp [get_corrective_exercises, hk]
  · simp [get_corrective_exercises, hk]
  · simp [get_corrective_exercises, hk]
  · intro hcontra
    have h2 := congrArg LookupResult.available_types hcontra
    simp [get_corrective_exercises, hk] at h2

/-- C8 witness: a one-entry catalog keyed IT_band queried for the
unknown key nonexistent_injury. -/
theorem C8_lookup_errors_witness :
    dictLookup [(("IT_band"), ("protocol"))] ("nonexistent_injury") = none ∧
    ((get_corrective_exercises (some [(("IT_band"), ("protocol"))]) ("nonexistent_injury")).status = ("error") ∧
      (get_corrective_exercises (some [(("IT_band"), ("protocol"))]) ("nonexistent_injury")).error_message
        = some ("Unknown injury type: " ++ "nonexistent_injury") ∧
      (get_corrective_exercises (some [(("IT_band"), ("protocol"))]) ("nonexistent_injury")).available_types
        = some ([(("IT_band"), ("protocol"))].map Prod.fst) ∧
      (get_corrective_exercises (none : Option (List (String × String))) ("nonexistent_injury")).status = ("error") ∧
      (get_corrective_exercises (none : Option (List (String × String))) ("nonexistent_injury")).available_types = none ∧
      get_corrective_exercises (none : Option (List (String × String))) ("nonexistent_injury")
        ≠ get_corrective_exercises (some [(("IT_band"), ("protocol"))]) ("nonexistent_injury")) :=
  ⟨by simp [dictLookup], C8_lookup_errors [(("IT_band"), ("protocol"))] ("nonexistent_injury") (by simp [dictLookup])⟩

/-- C9 counterexample: with no prior score the returned dict still
contains the improvement key (it is in the constant key set of the
return literal) and its value is null, so the field is present with a
null value, not absent. -/
theorem C9_counterexample :
    ("improvement") ∈ adjust_paces_keys ∧
    Option.map PaceResult.improvement (adjust_paces_from_race 18 144 none) = some none := by
  constructor
  · simp [adjust_paces_keys]
  · norm_num [adjust_paces_from_race]

/-- C9 amended: the improvement key is always present: its value is
null when no prior score is supplied, and an improvement-delta string
when a nonzero prior score is supplied. -/
theorem C9_improvement_key_null (d t p : ℚ) (hd : d ≠ 0) (hp : p ≠ 0) :
    ("improvement") ∈ adjust_paces_keys ∧
    Option.map PaceResult.improvement (adjust_paces_from_race d t none) = some none ∧
    Option.map hasImprovement (adjust_paces_from_race d t (some p)) = some true := by
  refine ⟨by simp [adjust_paces_keys], ?_, ?_⟩
  · simp [adjust_paces_from_race, hd]
  · simp [adjust_paces_from_race, hd, hasImprovement, hp]

/-- C9 witness: the improvement behavior at the 18-mile race with and
without a prior score of 40. -/
theorem C9_improvement_key_null_witness :
    ((18 : ℚ) ≠ 0 ∧ (40 : ℚ) ≠ 0) ∧
    (("improvement") ∈ adjust_paces_keys ∧
      Option.map PaceResult.improvement (adjust_paces_from_race 18 144 none) = some none ∧
      Option.map hasImprovement (adjust_paces_from_race 18 144 (some 40)) = some true) :=
  ⟨⟨by norm_num, by norm_num⟩, C9_improvement_key_null 18 144 40 (by norm_num) (by norm_num)⟩

/-- C10: two inputs with true ratios 1.496 and 1.504 against the same
constant baseline both return the rounded ratio 1.5 yet classify as
ELEVATED and HIGH respectively, so the returned rounded ratio does not
determine the returned risk level. -/
theorem C10_rounded_ratio_ambiguous :
    (calculate_acwr [(1309/125 : ℚ), 0, 0, 0, 0, 0, 0] (List.replicate 28 (1:ℚ))).ratio
      = (calculate_acwr [(1316/125 : ℚ), 0, 0, 0, 0, 0, 0] (List.replicate 28 (1:ℚ))).ratio ∧
    (calculate_acwr [(1309/125 : ℚ), 0, 0, 0, 0, 0, 0] (List.replicate 28 (1:ℚ))).risk_level
      = ("ELEVATED") ∧
    (calculate_acwr [(1316/125 : ℚ), 0, 0, 0, 0, 0, 0] (List.replicate 28 (1:ℚ))).risk_level
      = ("HIGH") ∧
    (calculate_acwr [(1309/125 : ℚ), 0, 0, 0, 0, 0, 0] (List.replicate 28 (1:ℚ))).risk_level
      ≠ (calculate_acwr [(1316/125 : ℚ), 0, 0, 0, 0, 0, 0] (List.replicate 28 (1:ℚ))).risk_level := by
  refine ⟨?_, ?_, ?_, ?_⟩ <;>
    norm_num [calculate_acwr, roundTo, pyRoundInt] <;>
    decide
